import Mathlib

/-
  Verification development for the allinone-converter repository.

  The repository contains two Next.js API routes:
  * `app/api/transcribe-video/route.ts`  (part_000 is the reference revision)
  * `app/api/convert-document/route.ts`  (part_001, lines 209-414; the
    `src/app/api/convert-document/route.ts` file is a near-identical revision)

  The definitions below are a shallow embedding of those routes.  External
  collaborators (ytdl-core, ffmpeg, the OpenAI Whisper client, the
  CloudConvert SDK, fetch) are modelled as oracle fields of an environment
  record: each field holds the value the collaborator would return, or the
  message of the error it would throw.  Provider/SDK failures are modelled
  as plain thrown `Error` values carrying only a message, matching the
  internally constructed `new Error(...)` values the routes themselves throw
  on every path exercised by the theorems.  JavaScript control flow is
  translated directly: early `return` inside `try` produces a response,
  `throw` produces an error value consumed by the `catch` translation, and
  the `finally` block of the transcription route is a post-composition that
  runs on every path.  A trace record accounts for the externally visible
  side effects the specification talks about (directory creation/removal,
  network calls, file writes).
-/

/-- JavaScript truthiness of a possibly-absent string: `undefined`, `null`
and `""` are falsy; every other string is truthy. -/
def jsTruthy : Option String → Bool
  | none => false
  | some s => s ≠ ""

/-- JavaScript `x || y` for a possibly-absent string `x` and a string
default `y`: returns `x`'s value when it is truthy, else `y`. -/
def jsOrElse (x : Option String) (y : String) : String :=
  match x with
  | none => y
  | some s => if s = "" then y else s

/- ----------------------------------------------------------------------
   Path model: Node's `path.join`, which concatenates the segments and
   normalizes `.` and `..` components.  Only absolute directories appear
   in the routes (`os.tmpdir()`-rooted), so paths are rendered absolute.
   ---------------------------------------------------------------------- -/

/-- Split a path string into its `/`-separated components. -/
def splitSegsAux : List Char → List Char → List (List Char)
  | [], acc => [acc.reverse]
  | c :: cs, acc =>
    if c = '/' then acc.reverse :: splitSegsAux cs []
    else splitSegsAux cs (c :: acc)

/-- Path components of a string, empty components dropped. -/
def splitSegs (s : String) : List String :=
  ((splitSegsAux s.toList []).map (fun l => String.mk l)).filter (fun t => t ≠ "")

/-- Resolve `.` and `..` components the way `path.join` normalizes them
(`..` at the root is dropped, as in `path.join("/", "..") = "/"`). -/
def normSegs (segs : List String) : List String :=
  (segs.foldl
    (fun acc seg =>
      if seg = "." then acc
      else if seg = ".." then acc.dropLast
      else acc ++ [seg]) [])

/-- Node `path.join(dir, name)` for an absolute `dir`. -/
def pathJoin (dir name : String) : String :=
  "/" ++ String.intercalate "/" (normSegs (splitSegs dir ++ splitSegs name))

/-- Whether path `p` lies inside directory `dir` (its components extend
`dir`'s components). -/
def pathWithin (dir p : String) : Bool :=
  (splitSegs dir).isPrefixOf (splitSegs p)

/-- Destination path used by the upload branch of the transcription route:
`path.join(tempSessionDir, videoFile.name)` (part_000 line 192). -/
def uploadDestPath (workspaceDir name : String) : String :=
  pathJoin workspaceDir name

/-- The index of the last `'.'` in a character list, if any. -/
def lastDotPos (cs : List Char) : Option Nat :=
  (List.range cs.length).foldl
    (fun acc i => if cs.getD i ' ' = '.' then some i else acc) none

/-- Node `path.parse(s).name`: the base name with its extension removed
(a lone leading dot is not an extension separator). -/
def fileStem (s : String) : String :=
  let cs := s.toList
  match lastDotPos cs with
  | some i => if i = 0 then s else String.mk (cs.take i)
  | none => s

/-- Title sanitization of the remote-fetch path (part_000 line 131):
`title.replace(/[<>:"\/\\|?*]+/g, '').substring(0, 100)`. -/
def sanitizeTitle (t : String) : String :=
  String.mk
    (((t.toList.filter
        (fun c => ¬ (c ∈ ['<', '>', ':', '"', '/', '\\', '|', '?', '*'])))).take 100)

/-- `title.replace(/\s/g, '_')` used to build the downloaded video's file
name (part_000 line 143). -/
def underscoreWhitespace (t : String) : String :=
  String.mk (t.toList.map (fun c => if c.isWhitespace then '_' else c))

/-- ASCII lowercasing, modelling JavaScript `String.prototype.toLowerCase`
on the ASCII format identifiers the routes compare. -/
def asciiLowerChar (c : Char) : Char :=
  if 'A' ≤ c ∧ c ≤ 'Z' then Char.ofNat (c.toNat + 32) else c

/-- `s.toLowerCase()` for ASCII strings. -/
def asciiLower (s : String) : String :=
  String.mk (s.toList.map asciiLowerChar)

/- ----------------------------------------------------------------------
   Transcription client (part_000, `transcribeWithWhisper`, lines 53-123).
   The provider response is a JSON-ish object; the code only inspects the
   `text` field (which may hold a string or some other value) and a `text`
   field nested under `data`.
   ---------------------------------------------------------------------- -/

/-- A JSON field value as far as the normalization code distinguishes it:
either a string or some non-string value. -/
inductive JsField where
  | str (s : String)
  | other
deriving DecidableEq

/-- The `data` sub-object of a Whisper provider response. -/
structure WhisperData where
  text : Option JsField
deriving DecidableEq

/-- A Whisper provider response as inspected by `transcribeWithWhisper`. -/
structure WhisperResp where
  text : Option JsField
  data : Option WhisperData
deriving DecidableEq

/-- Error thrown when no text can be extracted (part_000 line 94). -/
def whisperUnrecognizedMsg : String :=
  "Could not extract text from Whisper API response: 'text' field missing, not a string, or structure unexpected."

/-- Transcript normalization of part_000 lines 67-95: return `text` when it
is a string; otherwise retry a top-level string `text` field, then a string
`text` under `data`; otherwise throw. -/
def extractWhisperText (r : WhisperResp) : Except String String :=
  match r.text with
  | some (JsField.str s) => Except.ok s
  | _ =>
    -- fallback block: `'text' in t && typeof t.text === 'string'` first
    match r.text with
    | some (JsField.str s) => Except.ok s
    | _ =>
      -- `else if ('data' in t)` with a string `text` inside
      match r.data with
      | some d =>
        match d.text with
        | some (JsField.str s) => Except.ok s
        | _ => Except.error whisperUnrecognizedMsg
      | none => Except.error whisperUnrecognizedMsg

/-- Modelled from the spec's words (§4.4), for comparison with
`extractWhisperText`: "if the expected `text` field is a string, return it;
otherwise attempt, in order, (a) any top-level `text` string field, (b) a
`text` string nested under a `data` field; if none found, fail". -/
def whisperSpecNormalize (r : WhisperResp) : Option String :=
  match r.text with
  | some (JsField.str s) => some s
  | _ =>
    match r.data with
    | some d =>
      match d.text with
      | some (JsField.str s) => some s
      | _ => none
    | none => none

/-- `transcribeWithWhisper` (part_000 lines 53-123): the API-key guard
throws before the `try`; inside the `try`, a provider failure or an
extraction failure is wrapped by the `catch` as
`"Whisper API transcription failed: " + message`. -/
def transcribeWithWhisper (apiKeySet : Bool) (providerResp : Except String WhisperResp) :
    Except String String :=
  if apiKeySet = false then
    Except.error "OpenAI API key is not configured. Cannot transcribe."
  else
    match providerResp with
    | Except.error e => Except.error ("Whisper API transcription failed: " ++ e)
    | Except.ok r =>
      match extractWhisperText r with
      | Except.ok s => Except.ok s
      | Except.error e => Except.error ("Whisper API transcription failed: " ++ e)

/- ----------------------------------------------------------------------
   Remote fetch (part_000, `downloadYouTubeVideoAndExtractAudio`,
   lines 126-169) and the transcription route POST (lines 172-271).
   ---------------------------------------------------------------------- -/

/-- A ytdl format object as far as the route inspects it. -/
structure YtFormat where
  url : Option String
  container : Option String
deriving DecidableEq

/-- Resolved remote metadata (`ytdl.getInfo`): the route uses the title. -/
structure VideoInfo where
  title : String
deriving DecidableEq

/-- A failure of the download stream: either the network stream or the
disk write stream errored (part_000 lines 157-164). -/
inductive StreamFailure where
  | network (m : String)
  | disk (m : String)
deriving DecidableEq

/-- An uploaded multipart file, as far as these routes inspect it. -/
structure UpFile where
  name : String
deriving DecidableEq

/-- Oracle environment for one transcription request: the values the
external collaborators return (or the messages of the errors they throw). -/
structure TransEnv where
  /-- Result of `fsPromises.mkdtemp(path.join(os.tmpdir(), 'transcribe-session-'))`. -/
  sessionDir : String
  /-- `ytdl.validateURL(videoUrl)` — a local, purely syntactic check. -/
  urlValid : Bool
  /-- `ytdl.getInfo(videoUrl)` — first network call of the remote fetch. -/
  getInfo : Except String VideoInfo
  /-- `ytdl.chooseFormat(info.formats, { quality: 'highestaudio', filter: 'audioonly' })`. -/
  audioOnlyFmt : Option YtFormat
  /-- `ytdl.chooseFormat(info.formats, { quality: 'highest', filter: f => f.hasAudio })`. -/
  withAudioFmt : Option YtFormat
  /-- Outcome of piping the chosen format's stream to disk. -/
  streamErr : Option StreamFailure
  /-- ffmpeg failure message, if the audio extraction subprocess fails. -/
  extractErr : Option String
  /-- The `Date.now() + "_" + random` unique suffix. -/
  suffix : String
  /-- The Whisper provider call: a response object, or a thrown message. -/
  whisperResp : Except String WhisperResp

/-- Externally visible side effects of one transcription request. -/
structure TransTrace where
  /-- Whether any network call was issued (getInfo / stream / provider). -/
  networkCalled : Bool
  /-- Whether the media download stream was started. -/
  streamStarted : Bool
  /-- The path the upload branch wrote the uploaded blob to, if it ran. -/
  writtenUploadPath : Option String
  /-- How many times the session directory was removed. -/
  removeCount : Nat
deriving DecidableEq

/-- A transcription request's form fields. -/
structure TransReq where
  operationType : Option String
  video : Option UpFile
  videoUrl : Option String
deriving DecidableEq

/-- The JSON response of the transcription route. -/
structure TransResp where
  status : Nat
  transcription : Option String
  videoTitle : Option String
  originalFileName : Option String
  error : Option String
  details : Option String
deriving DecidableEq

/-- `extractAudio` (part_000 lines 28-51): ffmpeg failure is wrapped as
`'Failed to extract audio: ' + message`; success yields the mp3 path built
from the input's stem and the unique suffix. -/
def extractAudio (env : TransEnv) (videoPath outputDir : String) : Except String String :=
  match env.extractErr with
  | some e => Except.error ("Failed to extract audio: " ++ e)
  | none =>
    Except.ok (pathJoin outputDir
      (fileStem ((splitSegs videoPath).getLastD videoPath) ++ "_" ++ env.suffix ++ "_audio.mp3"))

/-- Error thrown when neither `chooseFormat` call yields a usable format
(part_000 line 138). -/
def noFormatMsg : String :=
  "Could not find a suitable video/audio format to download from YouTube."

/-- The format-selection logic of part_000 lines 133-140: take the best
audio-only format; if it is missing or lacks a URL, take the best format
with an audio track; if that is also missing or lacks a URL, throw. -/
def selectDownloadFormat (audioOnly withAudio : Option YtFormat) : Except String YtFormat :=
  match audioOnly with
  | some f =>
    if jsTruthy f.url then Except.ok f
    else
      match withAudio with
      | some g => if jsTruthy g.url then Except.ok g else Except.error noFormatMsg
      | none => Except.error noFormatMsg
  | none =>
    match withAudio with
    | some g => if jsTruthy g.url then Except.ok g else Except.error noFormatMsg
    | none => Except.error noFormatMsg

/-- The format `selectDownloadFormat` considers usable: present with a
truthy URL. -/
def usableFormat (o : Option YtFormat) : Option YtFormat :=
  match o with
  | some f => if jsTruthy f.url then some f else none
  | none => none

/-- `downloadYouTubeVideoAndExtractAudio` (part_000 lines 126-169).
Returns the extracted audio path and the sanitized title, or the message of
the error thrown; threads the side-effect trace. -/
def downloadYouTubeVideoAndExtractAudio (env : TransEnv) (videoUrl outputDir : String)
    (t : TransTrace) : Except String (String × String) × TransTrace :=
  if env.urlValid = false then
    (Except.error "Invalid YouTube URL", t)
  else
    -- `await ytdl.getInfo(videoUrl)` — the first network call
    let t1 := { t with networkCalled := true }
    match env.getInfo with
    | Except.error e => (Except.error e, t1)
    | Except.ok info =>
      let videoTitle := sanitizeTitle info.title
      match selectDownloadFormat env.audioOnlyFmt env.withAudioFmt with
      | Except.error e => (Except.error e, t1)
      | Except.ok fmt =>
        let videoName := "youtube_" ++ underscoreWhitespace videoTitle ++ "_" ++ env.suffix
          ++ "." ++ jsOrElse fmt.container "mp4"
        let videoPath := pathJoin outputDir videoName
        let t2 := { t1 with streamStarted := true }
        match env.streamErr with
        | some (StreamFailure.network m) =>
          (Except.error ("Failed to download YouTube content: " ++ m), t2)
        | some (StreamFailure.disk m) =>
          (Except.error ("Failed to write YouTube content to disk: " ++ m), t2)
        | none =>
          match extractAudio env videoPath outputDir with
          | Except.error e => (Except.error e, t2)
          | Except.ok audioPath => (Except.ok (audioPath, videoTitle), t2)

/-- Outcome of the `try` block of a route: either an explicit `return`
of a response, or a thrown error consumed by the `catch` block. -/
inductive BodyOutcome where
  | resp (r : TransResp)
  | thrown (msg : String)

/-- 400 response of the transcription route: only the `error` field. -/
def transErrResp (status : Nat) (msg : String) : TransResp :=
  { status := status, transcription := none, videoTitle := none,
    originalFileName := none, error := some msg, details := none }

/-- part_000 line 211. -/
def invalidOpMsg : String :=
  "Invalid operation type. Ensure \"operationType\" is sent correctly from the client."

/-- Lines 214-225 of part_000: the null-audio guard, the Whisper call and
the 200 response. The provider network call happens only when the API-key
guard inside `transcribeWithWhisper` passes. -/
def transcribeTail (apiKeySet : Bool) (env : TransEnv) (audioPath : String)
    (videoTitle origName : Option String) (t : TransTrace) : BodyOutcome × TransTrace :=
  if audioPath = "" then
    (BodyOutcome.thrown "No audio data could be prepared for transcription.", t)
  else
    let t1 := if apiKeySet then { t with networkCalled := true } else t
    match transcribeWithWhisper apiKeySet env.whisperResp with
    | Except.error e => (BodyOutcome.thrown e, t1)
    | Except.ok txt =>
      (BodyOutcome.resp
        { status := 200, transcription := some txt, videoTitle := videoTitle,
          originalFileName := origName, error := none, details := none }, t1)

/-- The `try` block of the transcription route POST (part_000 lines
179-225): branch on `operationType`, materialize the source media, extract
audio, transcribe. -/
def transcribeBody (apiKeySet : Bool) (env : TransEnv) (req : TransReq) (dir : String)
    (t : TransTrace) : BodyOutcome × TransTrace :=
  match req.operationType with
  | some op =>
    if op = "file" then
      match req.video with
      | none => (BodyOutcome.resp (transErrResp 400 "No video file provided for upload."), t)
      | some f =>
        let upPath := uploadDestPath dir f.name
        let t1 := { t with writtenUploadPath := some upPath }
        match extractAudio env upPath dir with
        | Except.error e => (BodyOutcome.thrown e, t1)
        | Except.ok audioPath =>
          transcribeTail apiKeySet env audioPath none (some f.name) t1
    else if op = "url" then
      match req.videoUrl with
      | none => (BodyOutcome.resp (transErrResp 400 "No video URL provided."), t)
      | some u =>
        match downloadYouTubeVideoAndExtractAudio env u dir t with
        | (Except.error e, t1) => (BodyOutcome.thrown e, t1)
        | (Except.ok (audioPath, title), t1) =>
          transcribeTail apiKeySet env audioPath (some title) (some title) t1
    else (BodyOutcome.resp (transErrResp 400 invalidOpMsg), t)
  | none => (BodyOutcome.resp (transErrResp 400 invalidOpMsg), t)

/-- The transcription route POST (part_000 lines 172-271).  The `catch`
block turns a thrown plain `Error` into a 500 whose `details` probing
(`'response' in error`, `'error' in error`, `error instanceof Error`)
yields `null`.  The `finally` block removes the session directory exactly
once on every path. -/
def transcribeVideoPOST (apiKeySet : Bool) (env : TransEnv) (req : TransReq) :
    TransResp × TransTrace :=
  let t0 : TransTrace :=
    { networkCalled := false, streamStarted := false,
      writtenUploadPath := none, removeCount := 0 }
  let out := transcribeBody apiKeySet env req env.sessionDir t0
  let r := match out.1 with
    | BodyOutcome.resp r => r
    | BodyOutcome.thrown m =>
      { status := 500, transcription := none, videoTitle := none,
        originalFileName := none, error := some m, details := none }
  (r, { out.2 with removeCount := out.2.removeCount + 1 })

/- ----------------------------------------------------------------------
   Document conversion (part_001 lines 209-414; the route file
   `src/app/api/convert-document/route.ts` is a near-identical revision of
   the same logic).
   ---------------------------------------------------------------------- -/

/-- One file entry of an export task's result. -/
structure CCFile where
  filename : Option String
  url : Option String
deriving DecidableEq

/-- The `result` object of a CloudConvert task; `files` is `none` when the
field is absent or not an array. -/
structure CCResult where
  files : Option (List CCFile)
deriving DecidableEq

/-- A CloudConvert task as inspected by the route. -/
structure CCTask where
  name : String
  id : Option String
  status : String
  message : Option String
  result : Option CCResult
deriving DecidableEq

/-- A CloudConvert job as inspected by the route; `message` is `some` when
the job object carries a string `message` property. -/
structure CCJob where
  id : Option String
  status : String
  message : Option String
  tasks : Option (List CCTask)
deriving DecidableEq

/-- Oracle environment for one conversion request: the values the
CloudConvert SDK and `fetch` return, or the messages of the errors they
throw. -/
structure CCEnv where
  /-- `cloudConvert.jobs.create(...)`. -/
  createJob : Except String CCJob
  /-- `fs.writeFile` of the uploaded bytes into the temp dir. -/
  writeErr : Option String
  /-- `cloudConvert.tasks.upload(...)`. -/
  uploadErr : Option String
  /-- `cloudConvert.jobs.wait(job.id)`. -/
  waitJob : Except String CCJob
  /-- `downloadResponse.ok` of the final `fetch`. -/
  downloadOk : Bool
  /-- `downloadResponse.body` being present. -/
  downloadBodyPresent : Bool
  /-- `downloadResponse.statusText`. -/
  downloadStatusText : String
  /-- The downloaded converted bytes. -/
  downloadBytes : List Nat

/-- Externally visible side effects of one conversion request. -/
structure CCTrace where
  /-- Whether `cloudConvert.jobs.create` was invoked. -/
  jobsCreateCalled : Bool
  /-- Whether the `cc-upload-` temp directory was created (`fs.mkdtemp`). -/
  tempDirCreated : Bool
  /-- Whether that temp directory was removed (`fs.rm`). -/
  tempDirRemoved : Bool
deriving DecidableEq

/-- `failedTask?.message` for the first task whose status is `error`
(part_001 lines 284 and 294). -/
def taskMsgOf (job : CCJob) : Option String :=
  ((job.tasks.getD []).find? (fun tk => tk.status == "error")).bind (fun tk => tk.message)

/-- The message selected on a failed job (part_001 line 296):
`taskErrorMessage || jobErrorMessage || 'Unknown error from CloudConvert'`. -/
def jobFailureMessage (job : CCJob) : String :=
  jsOrElse (taskMsgOf job) (jsOrElse job.message "Unknown error from CloudConvert")

/-- part_001 line 304. -/
def exportFailMsg : String :=
  "CloudConvert export task failed or did not produce a file."

/-- The tail of `performCloudConversion` after `jobs.wait` returns
(part_001 lines 283-319): the job-error branch, the export-task checks,
the filename computation, the URL requirement and the result download.
No filesystem side effect happens after the temp-dir removal, so this
phase is a pure result computation. -/
def ccAfterWait (env : CCEnv) (completedJob : CCJob) (inputName targetFormat : String) :
    Except String (List Nat × String) :=
  if completedJob.status == "error" then
    Except.error ("CloudConvert job failed: " ++ jobFailureMessage completedJob)
  else
    match (completedJob.tasks.getD []).find? (fun tk => tk.name == "export-file") with
    | none => Except.error exportFailMsg
    | some exportTask =>
      if exportTask.status ≠ "finished" then Except.error exportFailMsg
      else
        match exportTask.result with
        | none => Except.error exportFailMsg
        | some res =>
          match res.files with
          | none => Except.error exportFailMsg
          | some [] => Except.error exportFailMsg
          | some (resultFile :: _) =>
            let convertedFileName :=
              jsOrElse resultFile.filename (fileStem inputName ++ "." ++ targetFormat)
            if ¬ jsTruthy resultFile.url then
              Except.error "CloudConvert export task result did not contain a URL."
            else if ¬ (env.downloadOk ∧ env.downloadBodyPresent) then
              Except.error ("Failed to download converted file from CloudConvert: "
                ++ env.downloadStatusText)
            else
              Except.ok (env.downloadBytes, convertedFileName)

/-- The `try` block of `performCloudConversion` (part_001 lines 251-321):
create the job, upload into a fresh temp dir, remove the temp dir, wait
for the job, then hand over to `ccAfterWait`.  Note the temp-dir removal
at line 277 is on the straight-line path only — it is not in a `finally`,
so a throw from the write or the upload skips it. -/
def ccPipeline (env : CCEnv) (inputName targetFormat : String) :
    Except String (List Nat × String) × CCTrace :=
  let t0 : CCTrace := { jobsCreateCalled := true, tempDirCreated := false, tempDirRemoved := false }
  match env.createJob with
  | Except.error e => (Except.error e, t0)
  | Except.ok job =>
    if ¬ jsTruthy job.id then
      (Except.error "CloudConvert job creation failed or job has no ID.", t0)
    else
      match (job.tasks.getD []).find? (fun tk => tk.name == "import-file") with
      | none => (Except.error "CloudConvert upload task not found in job or task has no ID.", t0)
      | some uploadTask =>
        if ¬ jsTruthy uploadTask.id then
          (Except.error "CloudConvert upload task not found in job or task has no ID.", t0)
        else
          -- `await fs.mkdtemp(path.join(os.tmpdir(), 'cc-upload-'))`
          let t1 := { t0 with tempDirCreated := true }
          match env.writeErr with
          | some e => (Except.error e, t1)
          | none =>
            match env.uploadErr with
            | some e => (Except.error e, t1)
            | none =>
              -- `await fs.rm(tempDir, { recursive: true, force: true })`
              let t2 := { t1 with tempDirRemoved := true }
              match env.waitJob with
              | Except.error e => (Except.error e, t2)
              | Except.ok completedJob =>
                (ccAfterWait env completedJob inputName targetFormat, t2)

/-- `performCloudConversion` (part_001 lines 243-350): the `catch` block
rethrows every failure as a plain `Error` with message
`'CloudConvert processing failed: ' + errorMessage`. -/
def performCloudConversion (env : CCEnv) (inputName targetFormat : String) :
    Except String (List Nat × String) × CCTrace :=
  match ccPipeline env inputName targetFormat with
  | (Except.ok r, t) => (Except.ok r, t)
  | (Except.error e, t) => (Except.error ("CloudConvert processing failed: " ++ e), t)

/-- part_001 line 240. -/
def SUPPORTED_DOC_OUTPUT_FORMATS_API : List String :=
  ["pdf", "docx", "txt", "html", "odt", "pptx", "jpg", "png"]

/-- part_001 lines 230-239: the format → MIME table. -/
def EXT_TO_MIMETYPE (ext : String) : Option String :=
  if ext = "pdf" then some "application/pdf"
  else if ext = "docx" then
    some "application/vnd.openxmlformats-officedocument.wordprocessingml.document"
  else if ext = "txt" then some "text/plain"
  else if ext = "html" then some "text/html"
  else if ext = "odt" then some "application/vnd.oasis.opendocument.text"
  else if ext = "pptx" then
    some "application/vnd.openxmlformats-officedocument.presentationml.presentation"
  else if ext = "jpg" then some "image/jpeg"
  else if ext = "png" then some "image/png"
  else none

/-- A conversion request's form fields. -/
structure ConvReq where
  document : Option UpFile
  targetFormat : Option String
  inputFileName : Option String
deriving DecidableEq

/-- The response of the conversion route: JSON error fields or raw bytes
with headers. -/
structure ConvResp where
  status : Nat
  error : Option String
  details : Option String
  contentType : Option String
  disposition : Option String
  bytes : Option (List Nat)
deriving DecidableEq

/-- The conversion route POST (part_001 lines 352-414): the API-key guard,
the two 400 validations, the call into `performCloudConversion`, the 200
bytes response, and the `catch` block (whose `details` probing yields
`null` for the plain `Error` that `performCloudConversion` rethrows). -/
def convertDocumentPOST (apiKeyConfigured : Bool) (env : CCEnv) (req : ConvReq) :
    ConvResp × CCTrace :=
  let t0 : CCTrace := { jobsCreateCalled := false, tempDirCreated := false, tempDirRemoved := false }
  if apiKeyConfigured = false then
    ({ status := 500, error := some "Server configuration error for conversion service.",
       details := none, contentType := none, disposition := none, bytes := none }, t0)
  else
    -- `if (!documentFile || !inputFileName)`
    if req.document = none ∨ ¬ jsTruthy req.inputFileName then
      ({ status := 400, error := some "No document file provided.",
         details := none, contentType := none, disposition := none, bytes := none }, t0)
    else
      -- `if (!targetFormat || !SUPPORTED...includes(targetFormat.toLowerCase()))`
      if ¬ jsTruthy req.targetFormat
          ∨ ¬ SUPPORTED_DOC_OUTPUT_FORMATS_API.contains (asciiLower (jsOrElse req.targetFormat "")) then
        -- the template literal renders a `null` field as the text "null"
        ({ status := 400,
           error := some ("Unsupported target format: "
             ++ (match req.targetFormat with | some s => s | none => "null")),
           details := none, contentType := none, disposition := none, bytes := none }, t0)
      else
        let docName := match req.document with
          | some f => f.name
          | none => ""
        let fmt := jsOrElse req.targetFormat ""
        match performCloudConversion env docName fmt with
        | (Except.error e, t) =>
          ({ status := 500, error := some e, details := none,
             contentType := none, disposition := none, bytes := none }, t)
        | (Except.ok (bytes, fname), t) =>
          ({ status := 200, error := none, details := none,
             contentType := some (jsOrElse (EXT_TO_MIMETYPE (asciiLower fmt)) "application/octet-stream"),
             disposition := some ("attachment; filename=\"" ++ fname ++ "\""),
             bytes := some bytes }, t)

/- ----------------------------------------------------------------------
   Concrete inputs used by counterexamples and witnesses.
   ---------------------------------------------------------------------- -/

/-- A job whose creation succeeded and whose import task is present. -/
def ccJobOk : CCJob :=
  { id := some "job-1", status := "waiting", message := none,
    tasks := some [{ name := "import-file", id := some "task-import",
                     status := "waiting", message := none, result := none }] }

/-- An environment in which the upload to CloudConvert throws after the
temp directory has been created. -/
def ccEnvUploadFails : CCEnv :=
  { createJob := Except.ok ccJobOk, writeErr := none,
    uploadErr := some "socket hang up",
    waitJob := Except.error "not reached", downloadOk := false,
    downloadBodyPresent := false, downloadStatusText := "", downloadBytes := [] }

/-- A completed job in terminal status `error` whose convert task carries
the task-level message "Encrypted file". -/
def ccJobEncrypted : CCJob :=
  { id := some "job-1", status := "error", message := none,
    tasks := some [{ name := "convert-file", id := some "task-convert",
                     status := "error", message := some "Encrypted file", result := none }] }

/-- An environment in which every step up to `jobs.wait` succeeds and the
job then resolves to status `error` with the "Encrypted file" task. -/
def ccEnvEncrypted : CCEnv :=
  { createJob := Except.ok ccJobOk, writeErr := none, uploadErr := none,
    waitJob := Except.ok ccJobEncrypted, downloadOk := true,
    downloadBodyPresent := true, downloadStatusText := "OK", downloadBytes := [] }

/-- A well-formed conversion request for a pdf target. -/
def convReqPdf : ConvReq :=
  { document := some { name := "report.docx" }, targetFormat := some "pdf",
    inputFileName := some "report.docx" }

/-- A benign transcription environment whose oracle fields are unreachable
on the paths exercised. -/
def transEnvBase : TransEnv :=
  { sessionDir := "/tmp/transcribe-session-abc123", urlValid := false,
    getInfo := Except.error "not reached", audioOnlyFmt := none,
    withAudioFmt := none, streamErr := none, extractErr := none,
    suffix := "1700000000000_ab12cd", whisperResp := Except.error "not reached" }

/-- The spec scenario request: `operationType = url`, `videoUrl = "not-a-url"`. -/
def transReqInvalidUrl : TransReq :=
  { operationType := some "url", video := none, videoUrl := some "not-a-url" }

/-- A file-upload request whose file name carries a traversal component. -/
def transReqTraversal : TransReq :=
  { operationType := some "file", video := some { name := "../evil.mp4" }, videoUrl := none }

/-- An environment whose remote video resolves, but offers no audio-only
format with a URL and no fallback format with an audio track. -/
def transEnvNoFormats : TransEnv :=
  { sessionDir := "/tmp/transcribe-session-abc123", urlValid := true,
    getInfo := Except.ok { title := "My Video" },
    audioOnlyFmt := some { url := none, container := some "webm" },
    withAudioFmt := none, streamErr := none, extractErr := none,
    suffix := "1700000000000_ab12cd", whisperResp := Except.error "not reached" }

/-- An all-zero transcription trace, the state at request start. -/
def transTrace0 : TransTrace :=
  { networkCalled := false, streamStarted := false,
    writtenUploadPath := none, removeCount := 0 }

/-- Whether a submitted `targetFormat` field is (case-insensitively)
outside the fixed supported set: absent, or its lowercasing is not in
`SUPPORTED_DOC_OUTPUT_FORMATS_API`. -/
def formatOutsideSupported (o : Option String) : Bool :=
  match o with
  | some tf => ¬ SUPPORTED_DOC_OUTPUT_FORMATS_API.contains (asciiLower tf)
  | none => true

/-- A conversion request asking for the unsupported target format `exe`. -/
def convReqExe : ConvReq :=
  { document := some { name := "a.docx" }, targetFormat := some "exe",
    inputFileName := some "a.docx" }

/-- A conversion request with a document but no `inputFileName` field. -/
def convReqNoName : ConvReq :=
  { document := some { name := "a.docx" }, targetFormat := some "pdf",
    inputFileName := none }

/-- A result file with a download URL but no declared filename. -/
def ccResultFileNoName : CCFile :=
  { filename := none, url := some "https://storage.example/out.pdf" }

/-- An export task finished with exactly the result file above. -/
def ccExportTaskDone : CCTask :=
  { name := "export-file", id := some "task-export", status := "finished",
    message := none, result := some { files := some [ccResultFileNoName] } }

/-- A completed job whose export task finished with one result file that
declares no filename but has a download URL. -/
def ccJobFinished : CCJob :=
  { id := some "job-1", status := "finished", message := none,
    tasks := some [ccExportTaskDone] }

/-- An environment in which the whole conversion pipeline succeeds. -/
def ccEnvSuccess : CCEnv :=
  { createJob := Except.ok ccJobOk, writeErr := none, uploadErr := none,
    waitJob := Except.ok ccJobFinished, downloadOk := true,
    downloadBodyPresent := true, downloadStatusText := "OK",
    downloadBytes := [37, 80, 68, 70] }


/- ----------------------------------------------------------------------
   Claim theorems.
   ---------------------------------------------------------------------- -/

/-- C6: for every provider response to a transcription request, the
returned transcript is computed by this exact normalization order: if the
response's `text` field is a string, that string is returned; otherwise a
top-level `text` string field is tried, then a `text` string nested under
a `data` field; if none is found, the function fails with an error stating
the response shape was unrecognized.  Formally: `extractWhisperText`
(translated from part_000 lines 67-95) agrees with `whisperSpecNormalize`
(written from the spec's words), erroring with the unrecognized-shape
message exactly when the spec-side normalization finds nothing. -/
theorem c6_whisper_normalization (r : WhisperResp) :
    (whisperSpecNormalize r).elim
      (extractWhisperText r = Except.error whisperUnrecognizedMsg)
      (fun s => extractWhisperText r = Except.ok s) := by
  rcases r with ⟨t, d⟩
  rcases t with - | tf
  · rcases d with - | dd
    · rfl
    · rcases dd with ⟨dt⟩
      rcases dt with - | df
      · rfl
      · rcases df with s | _ <;> rfl
  · rcases tf with s | _
    · rfl
    · rcases d with - | dd
      · rfl
      · rcases dd with ⟨dt⟩
        rcases dt with - | df
        · rfl
        · rcases df with s2 | _ <;> rfl

/-- C7: when the conversion job completes with status `error`, the error
message raised by the orchestrator is chosen with this precedence: the
message of the (first) task whose status is `error`, else the job-level
message, else the fixed fallback "Unknown error from CloudConvert".
`jobFailureMessage` is exactly the message selected at part_001 line 296
and interpolated into the raised error; "carries a message" is JavaScript
truthiness (present and non-empty), matching the `||` chain. -/
theorem c7_message_precedence (job : CCJob) :
    (jsTruthy (taskMsgOf job) = true → jobFailureMessage job = (taskMsgOf job).getD "") ∧
    (jsTruthy (taskMsgOf job) = false → jsTruthy job.message = true →
        jobFailureMessage job = job.message.getD "") ∧
    (jsTruthy (taskMsgOf job) = false → jsTruthy job.message = false →
        jobFailureMessage job = "Unknown error from CloudConvert") := by
  unfold jobFailureMessage jsOrElse jsTruthy
  cases htm : taskMsgOf job with
  | none =>
    cases hjm : job.message with
    | none => simp
    | some s2 => by_cases h2 : s2 = "" <;> simp [h2]
  | some s =>
    by_cases h1 : s = ""
    · cases hjm : job.message with
      | none => simp [h1]
      | some s2 => by_cases h2 : s2 = "" <;> simp [h1, h2]
    · simp [h1]

/-- C7 witness: on the concrete failed job whose convert task carries the
message "Encrypted file", that task-level message is selected. -/
theorem c7_message_precedence_witness :
    jobFailureMessage ccJobEncrypted = (taskMsgOf ccJobEncrypted).getD "" :=
  (c7_message_precedence ccJobEncrypted).1 (by decide)

/-- C9 (code bug): the upload branch writes the blob at
`path.join(tempSessionDir, videoFile.name)` with no sanitization, so the
name `"../evil.mp4"` resolves to `/tmp/evil.mp4`, outside the request's
workspace `/tmp/transcribe-session-abc123` — the path escapes the
workspace, violating the spec's traversal constraint. -/
theorem c9_traversal_escape :
    (transcribeVideoPOST true transEnvBase transReqTraversal).2.writtenUploadPath
      = some (uploadDestPath transEnvBase.sessionDir "../evil.mp4") ∧
    uploadDestPath transEnvBase.sessionDir "../evil.mp4" = "/tmp/evil.mp4" ∧
    pathWithin transEnvBase.sessionDir
      (uploadDestPath transEnvBase.sessionDir "../evil.mp4") = false := by decide

/-- C5: for every remote fetch, format selection first chooses the best
audio-only format; if no audio-only format with a URL exists, it falls
back to the best format that includes an audio track; if neither exists,
the acquisition fails with an error rather than downloading anything.
Conjunct 1 characterizes `selectDownloadFormat` (part_000 lines 133-140):
the audio-only choice is used when usable (present with a truthy URL),
else the with-audio fallback, else the failure message.  Conjunct 2: when
neither choice is usable, `downloadYouTubeVideoAndExtractAudio` fails with
that message and the download stream is never started. -/
theorem c5_format_selection (env : TransEnv) (url dir : String) (t : TransTrace)
    (info : VideoInfo) (hv : env.urlValid = true) (hi : env.getInfo = Except.ok info) :
    (selectDownloadFormat env.audioOnlyFmt env.withAudioFmt =
      (match usableFormat env.audioOnlyFmt with
       | some f => Except.ok f
       | none =>
         match usableFormat env.withAudioFmt with
         | some g => Except.ok g
         | none => Except.error noFormatMsg)) ∧
    (usableFormat env.audioOnlyFmt = none → usableFormat env.withAudioFmt = none →
      (downloadYouTubeVideoAndExtractAudio env url dir t).1 = Except.error noFormatMsg ∧
      (downloadYouTubeVideoAndExtractAudio env url dir t).2.streamStarted = t.streamStarted) := by
  have hsel : selectDownloadFormat env.audioOnlyFmt env.withAudioFmt =
      (match usableFormat env.audioOnlyFmt with
       | some f => Except.ok f
       | none =>
         match usableFormat env.withAudioFmt with
         | some g => Except.ok g
         | none => Except.error noFormatMsg) := by
    unfold selectDownloadFormat usableFormat
    cases env.audioOnlyFmt with
    | none =>
      cases env.withAudioFmt with
      | none => rfl
      | some g => by_cases hg : jsTruthy g.url <;> simp [hg]
    | some f =>
      by_cases hf : jsTruthy f.url
      · simp [hf]
      · cases env.withAudioFmt with
        | none => simp [hf]
        | some g => by_cases hg : jsTruthy g.url <;> simp [hf, hg]
  refine ⟨hsel, ?_⟩
  intro ha hw
  have hfail : selectDownloadFormat env.audioOnlyFmt env.withAudioFmt
      = Except.error noFormatMsg := by
    rw [hsel, ha, hw]
  unfold downloadYouTubeVideoAndExtractAudio
  simp [hv, hi, hfail]

/-- C5 witness: in `transEnvNoFormats` (audio-only format without a URL,
no with-audio fallback) the acquisition fails with the no-format error and
the stream is never started. -/
theorem c5_format_selection_witness :
    (downloadYouTubeVideoAndExtractAudio transEnvNoFormats "https://youtu.be/x" "/tmp/transcribe-session-abc123" transTrace0).1
        = Except.error noFormatMsg ∧
    (downloadYouTubeVideoAndExtractAudio transEnvNoFormats "https://youtu.be/x" "/tmp/transcribe-session-abc123" transTrace0).2.streamStarted
        = transTrace0.streamStarted :=
  (c5_format_selection transEnvNoFormats "https://youtu.be/x" "/tmp/transcribe-session-abc123"
    transTrace0 { title := "My Video" } rfl rfl).2 (by decide) (by decide)

/-- C4: for every request to the document conversion endpoint whose
`targetFormat` is (case-insensitively) outside the supported set
{pdf, docx, txt, html, odt, pptx, jpg, png}, the endpoint responds 400 and
`cloudConvert.jobs.create` is never invoked (stated for a configured API
key; an unconfigured key aborts with 500 even earlier, still without
contacting the provider). -/
theorem c4_unsupported_format (env : CCEnv) (req : ConvReq)
    (h : formatOutsideSupported req.targetFormat = true) :
    (convertDocumentPOST true env req).1.status = 400 ∧
    (convertDocumentPOST true env req).2.jobsCreateCalled = false := by
  have h2 : (¬ jsTruthy req.targetFormat
      ∨ ¬ SUPPORTED_DOC_OUTPUT_FORMATS_API.contains (asciiLower (jsOrElse req.targetFormat ""))) := by
    cases ho : req.targetFormat with
    | none => left; simp [jsTruthy]
    | some tf =>
      by_cases he : tf = ""
      · left; simp [jsTruthy, he]
      · right
        rw [ho] at h
        simp only [formatOutsideSupported] at h
        have hv : jsOrElse (some tf) "" = tf := by simp [jsOrElse, he]
        rw [hv]
        simpa using h
  unfold convertDocumentPOST
  by_cases h1 : req.document = none ∨ ¬ jsTruthy req.inputFileName
  · rw [if_neg (by simp)]
    rw [if_pos h1]
    exact ⟨rfl, rfl⟩
  · rw [if_neg (by simp)]
    rw [if_neg h1]
    rw [if_pos h2]
    exact ⟨rfl, rfl⟩

/-- C4 witness: submitting `targetFormat = "exe"` yields 400 and the
job-creation step is never invoked. -/
theorem c4_unsupported_format_witness :
    (convertDocumentPOST true ccEnvEncrypted convReqExe).1.status = 400 ∧
    (convertDocumentPOST true ccEnvEncrypted convReqExe).2.jobsCreateCalled = false :=
  c4_unsupported_format ccEnvEncrypted convReqExe (by decide)

/-- C10: for every request to the document conversion endpoint in which
the `document` file is present but the `inputFileName` field is missing,
the endpoint responds 400 with the message "No document file provided."
and the remote conversion provider is never contacted (stated for a
configured API key). -/
theorem c10_missing_input_filename (env : CCEnv) (req : ConvReq) (f : UpFile)
    (hdoc : req.document = some f) (hname : req.inputFileName = none) :
    (convertDocumentPOST true env req).1.status = 400 ∧
    (convertDocumentPOST true env req).1.error = some "No document file provided." ∧
    (convertDocumentPOST true env req).2.jobsCreateCalled = false := by
  unfold convertDocumentPOST
  simp [hdoc, hname, jsTruthy]

/-- C10 witness: the concrete request with a document and a missing
`inputFileName` draws the 400 response without provider contact. -/
theorem c10_missing_input_filename_witness :
    (convertDocumentPOST true ccEnvEncrypted convReqNoName).1.status = 400 ∧
    (convertDocumentPOST true ccEnvEncrypted convReqNoName).1.error = some "No document file provided." ∧
    (convertDocumentPOST true ccEnvEncrypted convReqNoName).2.jobsCreateCalled = false :=
  c10_missing_input_filename ccEnvEncrypted convReqNoName { name := "a.docx" } rfl rfl

/-- C2 counterexample: submitting `operationType = url`,
`videoUrl = "not-a-url"` (for which the syntactic URL check fails) yields
HTTP 500, not the claimed 400: the `throw new Error('Invalid YouTube URL')`
of part_000 line 128 is caught by the route's catch block, which always
responds with status 500. -/
theorem c2_invalid_url_counterexample :
    (transcribeVideoPOST true transEnvBase transReqInvalidUrl).1.status = 500 ∧
    ¬ (transcribeVideoPOST true transEnvBase transReqInvalidUrl).1.status = 400 := by decide

/-- C2 (amended): for every syntactically invalid URL string submitted as
`videoUrl` with operationType `url`, the transcription endpoint fails the
request with HTTP status 500 (not 400) and the error message
"Invalid YouTube URL", and the failure occurs before any network call is
made. -/
theorem c2_invalid_url_amended (apiKeySet : Bool) (env : TransEnv) (req : TransReq)
    (u : String) (hop : req.operationType = some "url") (hurl : req.videoUrl = some u)
    (hvalid : env.urlValid = false) :
    (transcribeVideoPOST apiKeySet env req).1.status = 500 ∧
    (transcribeVideoPOST apiKeySet env req).1.error = some "Invalid YouTube URL" ∧
    (transcribeVideoPOST apiKeySet env req).2.networkCalled = false := by
  unfold transcribeVideoPOST transcribeBody downloadYouTubeVideoAndExtractAudio
  simp [hop, hurl, hvalid]

/-- C2 witness: the amended statement at the concrete scenario input. -/
theorem c2_invalid_url_amended_witness :
    (transcribeVideoPOST true transEnvBase transReqInvalidUrl).1.error
      = some "Invalid YouTube URL" :=
  (c2_invalid_url_amended true transEnvBase transReqInvalidUrl "not-a-url" rfl rfl rfl).2.1

/-- The transcription tail never touches the session-directory removal
counter. -/
lemma transcribeTail_removeCount (apiKeySet : Bool) (env : TransEnv) (audioPath : String)
    (videoTitle origName : Option String) (t : TransTrace) :
    (transcribeTail apiKeySet env audioPath videoTitle origName t).2.removeCount
      = t.removeCount := by
  unfold transcribeTail
  rcases htw : transcribeWithWhisper apiKeySet env.whisperResp with e | txt <;>
    by_cases h : audioPath = "" <;>
      cases apiKeySet <;> simp [h, htw]

/-- The remote-fetch acquisition never touches the session-directory
removal counter. -/
lemma downloadYT_removeCount (env : TransEnv) (videoUrl outputDir : String) (t : TransTrace) :
    (downloadYouTubeVideoAndExtractAudio env videoUrl outputDir t).2.removeCount
      = t.removeCount := by
  unfold downloadYouTubeVideoAndExtractAudio
  by_cases hv : env.urlValid = false
  · simp [hv]
  · rcases hi : env.getInfo with e | info
    · simp [hv, hi]
    · rcases hs : selectDownloadFormat env.audioOnlyFmt env.withAudioFmt with e | fmt
      · simp [hv, hi, hs]
      · rcases hst : env.streamErr with - | sf
        · rcases hx : env.extractErr with - | e <;>
            simp [hv, hi, hs, hst, extractAudio, hx]
        · cases sf <;> simp [hv, hi, hs, hst]

/-- The `try` block of the transcription route never touches the
session-directory removal counter. -/
lemma transcribeBody_removeCount (apiKeySet : Bool) (env : TransEnv) (req : TransReq)
    (dir : String) (t : TransTrace) :
    (transcribeBody apiKeySet env req dir t).2.removeCount = t.removeCount := by
  unfold transcribeBody
  rcases hop : req.operationType with - | op
  · simp [hop]
  · by_cases hf : op = "file"
    · rcases hvid : req.video with - | f
      · simp [hop, hf, hvid]
      · rcases hx : env.extractErr with - | e
        · simp [hop, hf, hvid, extractAudio, hx, transcribeTail_removeCount]
        · simp [hop, hf, hvid, extractAudio, hx]
    · by_cases hu : op = "url"
      · rcases hvu : req.videoUrl with - | u
        · simp [hop, hf, hu, hvu]
        · rcases hdl : downloadYouTubeVideoAndExtractAudio env u dir t with ⟨res, t1⟩
          have h1 : t1.removeCount = t.removeCount := by
            have h2 := downloadYT_removeCount env u dir t
            rw [hdl] at h2
            exact h2
          rcases res with e | ⟨ap, title⟩ <;>
            simp [hop, hf, hu, hvu, hdl, transcribeTail_removeCount, h1]
      · simp [hop, hf, hu]

/-- `performCloudConversion` reports the same trace as its `try` block:
the catch wrapper only rewrites the error message. -/
lemma performCloudConversion_trace (env : CCEnv) (inputName targetFormat : String) :
    (performCloudConversion env inputName targetFormat).2
      = (ccPipeline env inputName targetFormat).2 := by
  unfold performCloudConversion
  rcases h : ccPipeline env inputName targetFormat with ⟨res, t⟩
  rcases res with e | r <;> simp [h]

/-- Full case analysis of the `cc-upload-` temp directory lifecycle: on
every run, either the directory is never created (failure before
`fs.mkdtemp`), or it is created and is removed exactly when both the file
write and the upload succeed. -/
lemma ccPipeline_cleanup_cases (env : CCEnv) (inputName targetFormat : String) :
    ((ccPipeline env inputName targetFormat).2.tempDirCreated = false
      ∧ (ccPipeline env inputName targetFormat).2.tempDirRemoved = false)
    ∨ ((ccPipeline env inputName targetFormat).2.tempDirCreated = true
      ∧ ((ccPipeline env inputName targetFormat).2.tempDirRemoved = true
          ↔ env.writeErr = none ∧ env.uploadErr = none)) := by
  unfold ccPipeline
  rcases env.createJob with e | job
  · left
    exact ⟨rfl, rfl⟩
  · cases hid : jsTruthy job.id
    · left
      simp [hid]
    · rcases hft : (job.tasks.getD []).find? (fun tk => tk.name == "import-file") with - | itk
      · left
        simp [hid, hft]
      · cases hitk : jsTruthy itk.id
        · left
          simp [hid, hft, hitk]
        · rcases hwr : env.writeErr with - | e
          · rcases hup : env.uploadErr with - | e
            · right
              rcases env.waitJob with e | cjob <;> simp [hid, hft, hitk, hwr, hup]
            · right
              simp [hid, hft, hitk, hwr, hup]
          · right
            simp [hid, hft, hitk, hwr]

/-- C1 counterexample: a document-conversion request in which the upload
to the provider throws (`ccEnvUploadFails`): the request's `cc-upload-`
workspace directory is created but never removed before the 500 response
is returned, refuting the claim's "removed exactly once on every exit
path" for the conversion endpoint. -/
theorem c1_workspace_cleanup_counterexample :
    (convertDocumentPOST true ccEnvUploadFails convReqPdf).1.status = 500 ∧
    (convertDocumentPOST true ccEnvUploadFails convReqPdf).2.tempDirCreated = true ∧
    (convertDocumentPOST true ccEnvUploadFails convReqPdf).2.tempDirRemoved = false := by decide

/-- C1 (amended): the transcription endpoint removes its session
workspace exactly once on every exit path (its `finally` block); the
document-conversion endpoint removes its `cc-upload-` workspace, once
created, exactly when the document write and the provider upload both
succeed — when either throws, the directory is leaked. -/
theorem c1_workspace_cleanup_amended (apiKeySet : Bool) (env : TransEnv) (req : TransReq)
    (cenv : CCEnv) (inputName targetFormat : String)
    (hc : (performCloudConversion cenv inputName targetFormat).2.tempDirCreated = true) :
    (transcribeVideoPOST apiKeySet env req).2.removeCount = 1 ∧
    ((performCloudConversion cenv inputName targetFormat).2.tempDirRemoved = true ↔
      cenv.writeErr = none ∧ cenv.uploadErr = none) := by
  constructor
  · unfold transcribeVideoPOST
    simp [transcribeBody_removeCount]
  · rw [performCloudConversion_trace] at hc ⊢
    rcases ccPipeline_cleanup_cases cenv inputName targetFormat with ⟨h1, h2⟩ | ⟨h1, h2⟩
    · rw [h1] at hc
      cases hc
    · exact h2

/-- C1 witness: the amended statement at concrete inputs — the invalid-URL
transcription request still removes its workspace once, and the failing
upload environment leaks its workspace (the right side of the equivalence
is false because the upload threw). -/
theorem c1_workspace_cleanup_amended_witness :
    (transcribeVideoPOST true transEnvBase transReqInvalidUrl).2.removeCount = 1 ∧
    ((performCloudConversion ccEnvUploadFails "report.docx" "pdf").2.tempDirRemoved = true ↔
      ccEnvUploadFails.writeErr = none ∧ ccEnvUploadFails.uploadErr = none) :=
  c1_workspace_cleanup_amended true transEnvBase transReqInvalidUrl ccEnvUploadFails
    "report.docx" "pdf" (by decide)

/-- When job creation, the import-task lookup, the write and the upload
all succeed and `jobs.wait` returns, the pipeline's result is the
post-wait computation on the completed job. -/
lemma ccPipeline_wait_ok (env : CCEnv) (inputName targetFormat : String)
    (job cjob : CCJob) (itk : CCTask)
    (hcj : env.createJob = Except.ok job) (hjid : jsTruthy job.id = true)
    (hfind : (job.tasks.getD []).find? (fun tk => tk.name == "import-file") = some itk)
    (hitk : jsTruthy itk.id = true)
    (hw : env.writeErr = none) (hu : env.uploadErr = none)
    (hwait : env.waitJob = Except.ok cjob) :
    (ccPipeline env inputName targetFormat).1 = ccAfterWait env cjob inputName targetFormat := by
  unfold ccPipeline
  simp [hcj, hjid, hfind, hitk, hw, hu, hwait]

/-- The catch wrapper of `performCloudConversion` on a failing pipeline. -/
lemma performCloudConversion_error (env : CCEnv) (inputName targetFormat e : String)
    (h : (ccPipeline env inputName targetFormat).1 = Except.error e) :
    (performCloudConversion env inputName targetFormat).1
      = Except.error ("CloudConvert processing failed: " ++ e) := by
  unfold performCloudConversion
  rcases hp : ccPipeline env inputName targetFormat with ⟨res, t⟩
  rw [hp] at h
  simp only at h
  subst h
  rfl

/-- The catch wrapper of `performCloudConversion` on a succeeding
pipeline. -/
lemma performCloudConversion_ok (env : CCEnv) (inputName targetFormat : String)
    (r : List Nat × String)
    (h : (ccPipeline env inputName targetFormat).1 = Except.ok r) :
    (performCloudConversion env inputName targetFormat).1 = Except.ok r := by
  unfold performCloudConversion
  rcases hp : ccPipeline env inputName targetFormat with ⟨res, t⟩
  rw [hp] at h
  simp only at h
  subst h
  rfl

/-- A well-formed conversion request whose orchestration throws draws the
500 JSON error response with `details: null`. -/
lemma convertDocumentPOST_error (env : CCEnv) (req : ConvReq) (f : UpFile) (tf e : String)
    (hdoc : req.document = some f) (hname : jsTruthy req.inputFileName = true)
    (htf : req.targetFormat = some tf) (htf1 : tf ≠ "")
    (htf2 : SUPPORTED_DOC_OUTPUT_FORMATS_API.contains (asciiLower tf) = true)
    (hpc : (performCloudConversion env f.name tf).1 = Except.error e) :
    (convertDocumentPOST true env req).1
      = { status := 500, error := some e, details := none,
          contentType := none, disposition := none, bytes := none } := by
  unfold convertDocumentPOST
  rw [if_neg (by simp)]
  rw [if_neg (by simp [hdoc, hname])]
  rw [if_neg (by simp [htf, jsTruthy, jsOrElse, htf1, htf2]; simpa using htf2)]
  rcases hp : performCloudConversion env f.name tf with ⟨res, t⟩
  rw [hp] at hpc
  simp only at hpc
  subst hpc
  simp [hdoc, htf, jsOrElse, htf1, hp]

/-- C3 counterexample: with every step up to `jobs.wait` succeeding and
the job resolving to status `error` with a task-level message
"Encrypted file" (`ccEnvEncrypted`), the response is 500 but its
`details` field is `null` — not the claimed `details` containing the
task-level message.  The message appears in the `error` field instead
(see the amended theorem). -/
theorem c3_details_counterexample :
    (convertDocumentPOST true ccEnvEncrypted convReqPdf).1.status = 500 ∧
    (convertDocumentPOST true ccEnvEncrypted convReqPdf).1.details = none := by decide

/-- C3 (amended): when the remote conversion job reaches terminal status
`error` and a task carries a (non-empty) task-level message `m`, a
well-formed request to the document conversion endpoint draws a 500
response whose `error` field is the doubly wrapped
"CloudConvert processing failed: CloudConvert job failed: " ++ `m`, and
whose `details` field is `null` (the rethrown value is a plain `Error`,
so the catch block's shape probing finds nothing). -/
theorem c3_job_error_amended (env : CCEnv) (req : ConvReq) (f : UpFile) (tf : String)
    (job cjob : CCJob) (itk : CCTask) (m : String)
    (hdoc : req.document = some f) (hname : jsTruthy req.inputFileName = true)
    (htf : req.targetFormat = some tf) (htf1 : tf ≠ "")
    (htf2 : SUPPORTED_DOC_OUTPUT_FORMATS_API.contains (asciiLower tf) = true)
    (hcj : env.createJob = Except.ok job) (hjid : jsTruthy job.id = true)
    (hfind : (job.tasks.getD []).find? (fun tk => tk.name == "import-file") = some itk)
    (hitk : jsTruthy itk.id = true)
    (hw : env.writeErr = none) (hu : env.uploadErr = none)
    (hwait : env.waitJob = Except.ok cjob) (hstatus : cjob.status = "error")
    (htm : taskMsgOf cjob = some m) (hm : m ≠ "") :
    (convertDocumentPOST true env req).1.status = 500 ∧
    (convertDocumentPOST true env req).1.error
      = some ("CloudConvert processing failed: " ++ ("CloudConvert job failed: " ++ m)) ∧
    (convertDocumentPOST true env req).1.details = none := by
  have hfail : (ccPipeline env f.name tf).1 = Except.error ("CloudConvert job failed: " ++ m) := by
    rw [ccPipeline_wait_ok env f.name tf job cjob itk hcj hjid hfind hitk hw hu hwait]
    unfold ccAfterWait
    rw [hstatus]
    simp [jobFailureMessage, htm, jsOrElse, hm]
  have hwrap := performCloudConversion_error env f.name tf _ hfail
  have hroute := convertDocumentPOST_error env req f tf _ hdoc hname htf htf1 htf2 hwrap
  rw [hroute]
  exact ⟨rfl, rfl, rfl⟩

/-- C3 witness: the amended statement at the concrete scenario input. -/
theorem c3_job_error_amended_witness :
    (convertDocumentPOST true ccEnvEncrypted convReqPdf).1.status = 500 ∧
    (convertDocumentPOST true ccEnvEncrypted convReqPdf).1.error
      = some ("CloudConvert processing failed: "
          ++ ("CloudConvert job failed: " ++ "Encrypted file")) ∧
    (convertDocumentPOST true ccEnvEncrypted convReqPdf).1.details = none :=
  c3_job_error_amended ccEnvEncrypted convReqPdf { name := "report.docx" } "pdf"
    ccJobOk ccJobEncrypted
    { name := "import-file", id := some "task-import", status := "waiting",
      message := none, result := none }
    "Encrypted file" rfl (by decide) rfl (by decide) (by decide) rfl (by decide)
    (by decide) (by decide) rfl rfl rfl (by decide) (by decide) (by decide)

/-- C8: when the conversion job finishes successfully and the export task
is finished with a non-empty file list, the output filename is the first
result file's declared filename or, when that is absent (falsy), the
original input filename's stem followed by `.` and the target format; and
when the first result file has no download URL, the orchestrator fails
instead of returning a result. -/
theorem c8_output_filename (env : CCEnv) (inputName targetFormat : String)
    (job cjob : CCJob) (itk etk : CCTask) (res : CCResult)
    (resultFile : CCFile) (rest : List CCFile)
    (hcj : env.createJob = Except.ok job) (hjid : jsTruthy job.id = true)
    (hfind : (job.tasks.getD []).find? (fun tk => tk.name == "import-file") = some itk)
    (hitk : jsTruthy itk.id = true)
    (hw : env.writeErr = none) (hu : env.uploadErr = none)
    (hwait : env.waitJob = Except.ok cjob) (hstatus : cjob.status ≠ "error")
    (hexp : (cjob.tasks.getD []).find? (fun tk => tk.name == "export-file") = some etk)
    (hetk : etk.status = "finished") (hres : etk.result = some res)
    (hfiles : res.files = some (resultFile :: rest)) :
    (∀ nm, resultFile.filename = some nm → nm ≠ "" →
      jsTruthy resultFile.url = true → env.downloadOk = true → env.downloadBodyPresent = true →
      (performCloudConversion env inputName targetFormat).1
        = Except.ok (env.downloadBytes, nm)) ∧
    (jsTruthy resultFile.filename = false →
      jsTruthy resultFile.url = true → env.downloadOk = true → env.downloadBodyPresent = true →
      (performCloudConversion env inputName targetFormat).1
        = Except.ok (env.downloadBytes, fileStem inputName ++ "." ++ targetFormat)) ∧
    (jsTruthy resultFile.url = false →
      (performCloudConversion env inputName targetFormat).1
        = Except.error ("CloudConvert processing failed: "
            ++ "CloudConvert export task result did not contain a URL.")) := by
  have hbase : (ccPipeline env inputName targetFormat).1
      = ccAfterWait env cjob inputName targetFormat :=
    ccPipeline_wait_ok env inputName targetFormat job cjob itk hcj hjid hfind hitk hw hu hwait
  refine ⟨?_, ?_, ?_⟩
  · intro nm hnm hne hurl hok hbody
    apply performCloudConversion_ok
    rw [hbase]
    unfold ccAfterWait
    simp [hstatus, hexp, hetk, hres, hfiles, hurl, hok, hbody, jsOrElse, hnm, hne]
  · intro hfn hurl hok hbody
    apply performCloudConversion_ok
    rw [hbase]
    unfold ccAfterWait
    rcases hfe : resultFile.filename with - | nm
    · simp [hstatus, hexp, hetk, hres, hfiles, hurl, hok, hbody, jsOrElse, hfe]
    · have hne : nm = "" := by
        rw [hfe] at hfn
        simpa [jsTruthy] using hfn
      simp [hstatus, hexp, hetk, hres, hfiles, hurl, hok, hbody, jsOrElse, hfe, hne]
  · intro hurl
    apply performCloudConversion_error
    rw [hbase]
    unfold ccAfterWait
    simp [hstatus, hexp, hetk, hres, hfiles, hurl]

/-- C8 witness: on the concrete successful environment whose result file
declares no filename, the output filename is the input's stem plus the
target format. -/
theorem c8_output_filename_witness :
    (performCloudConversion ccEnvSuccess "report.docx" "pdf").1
      = Except.ok (ccEnvSuccess.downloadBytes, fileStem "report.docx" ++ "." ++ "pdf") :=
  (c8_output_filename ccEnvSuccess "report.docx" "pdf" ccJobOk ccJobFinished
    { name := "import-file", id := some "task-import", status := "waiting",
      message := none, result := none }
    ccExportTaskDone { files := some [ccResultFileNoName] } ccResultFileNoName []
    rfl (by decide) (by decide) (by decide) rfl rfl rfl (by decide) (by decide)
    rfl rfl rfl).2.1 (by decide) (by decide) rfl rfl
